import Mathlib

/-!
Verification of the OCR orchestration pipeline of `src/ocr/lib.py`
(repository raul23/ocr), shallowly embedded in Lean 4.

Strings are processed as `List Char`; external processes (page-count
tool, page rasterizer, OCR backend) are modelled by an explicit
environment `Env` recording, for each invocation, the exit status and
the text the tool produced.  Python exceptions are modelled by
`Option`: a result of `none` is an uncaught exception.
-/

namespace OcrLib

/-! ### Python string primitives used by the page-spec parser -/

/-- Characters stripped by Python's `int(str)` conversion (ASCII
whitespace; the model covers ASCII input strings). -/
def isPyWs (c : Char) : Bool :=
  c = (' ') || c = ('\t') || c = ('\n') || c = ('\r') ||
  c = ('\x0b') || c = ('\x0c')

/-- Strip leading and trailing whitespace, as Python's `int` does before
parsing. -/
def stripWs (cs : List Char) : List Char :=
  ((cs.dropWhile isPyWs).reverse.dropWhile isPyWs).reverse

/-- Digit-sequence tail of Python's integer-literal grammar: after the
first digit, groups of digits may be separated by single underscores
(`1_0` is accepted, `1__0` and `1_` are not).  `acc` is the value of the
digits already consumed. -/
def pyDigitsGo (acc : Nat) : List Char → Option Nat
  | [] => some acc
  | c :: cs =>
    if c = ('_') then
      match cs with
      | [] => none
      | d :: ds => if d.isDigit then pyDigitsGo (acc * 10 + (d.toNat - 48)) ds else none
    else if c.isDigit then pyDigitsGo (acc * 10 + (c.toNat - 48)) cs else none

/-- Nonempty digit sequence (with underscore grouping) of Python's
integer-literal grammar; must start and end with a digit. -/
def pyDigits : List Char → Option Nat
  | [] => none
  | c :: rest => if c.isDigit then pyDigitsGo (c.toNat - 48) rest else none

/-- Sign-and-digits part of Python's `int(str)` grammar, applied after
whitespace stripping. -/
def pyIntCore : List Char → Option Int
  | [] => none
  | c :: r =>
    if c = ('+') then (pyDigits r).map Int.ofNat
    else if c = ('-') then (pyDigits r).map (fun n => -(n : Int))
    else (pyDigits (c :: r)).map Int.ofNat

/-- Python's built-in `int(str)` on ASCII strings: optional surrounding
whitespace, optional single sign, then a nonempty digit sequence with
optional underscore grouping.  `none` models the `ValueError` raised on
any other input. -/
def pyInt (cs : List Char) : Option Int :=
  pyIntCore (stripWs cs)

/-- One step of `str.split`: prepend `c` to an already-split tail. -/
def splitCons (sep c : Char) : List (List Char) → List (List Char)
  | [] => [[]]
  | t :: ts => if c = sep then [] :: t :: ts else (c :: t) :: ts

/-- Python's `str.split(sep)` for a one-character separator: splitting
the empty string yields `[""]`, adjacent separators yield empty
fields. -/
def splitChar (sep : Char) : List Char → List (List Char)
  | [] => [[]]
  | c :: rest => splitCons sep c (splitChar sep rest)

/-! ### Page selection (`ocr_file`, lines 317-335)

`pages = sorted(range(p1, p2 + 1))` for `p1 <= p2` is the ascending
sequence `p1..p2`; `sorted(range(p2, p1 + 1), reverse=True)` for
`p1 > p2` is the descending sequence `p1, p1-1, ..., p2`. -/

/-- `sorted(range(a, b + 1))`: the ascending list `a, a+1, ..., b`
(empty when `b < a`). -/
def ascRange (a b : Int) : List Int :=
  (List.range (b + 1 - a).toNat).map (fun (i : Nat) => a + (i : Int))

/-- Expansion of a dash pair `p1-p2` as computed by the source:
descending `p1, p1-1, ..., p2` when `p1 > p2`, ascending `p1..p2`
otherwise. -/
def expandPair (p1 p2 : Int) : List Int :=
  if p1 > p2 then (ascRange p2 p1).reverse else ascRange p1 p2

/-- `p1, p2 = p.split('-'); p1 = int(p1); p2 = int(p2)` then expansion:
both conversions must succeed (`none` models the `ValueError`). -/
def pairPages : Option Int → Option Int → Option (List Int)
  | some p1, some p2 => some (expandPair p1 p2)
  | _, _ => none

/-- Dash-token handling: the dash split must have exactly two parts
(`none` models the `ValueError` from unpacking `p.split('-')`). -/
def tokenPagesDash : List (List Char) → Option (List Int)
  | [s1, s2] => pairPages (pyInt s1) (pyInt s2)
  | _ => none

/-- `pages_to_process.append(int(p))` for a dashless token: the single
page, or `none` for the `ValueError` from `int()`. -/
def tokenPagesNoDash : Option Int → Option (List Int)
  | some n => some [n]
  | none => none

/-- Pages contributed by one token of the comma-split (`ocr_file`,
lines 321-331): a token containing a dash must split into exactly two
parts, both convertible by `int`, and expands via `expandPair`; a token
without a dash is converted by `int` directly.  `none` models the
uncaught `ValueError` from `int()` or from unpacking the dash split. -/
def tokenPages (t : List Char) : Option (List Int) :=
  if t.contains ('-') then tokenPagesDash (splitChar ('-') t)
  else tokenPagesNoDash (pyInt t)

/-- The token loop of `ocr_file` (lines 320-331): the contributions of
the comma-separated tokens, concatenated in token order
(`pages_to_process.extend` / `.append`); a raised `ValueError`
propagates. -/
def parseTokens : List (List Char) → Option (List Int)
  | [] => some []
  | t :: ts =>
    match tokenPages t with
    | none => none
    | some ps => (parseTokens ts).map (fun r => ps ++ r)

/-- Page-sequence computation of `ocr_file` (lines 317-335): a truthy
(present and nonempty) `ocr_pages` string is split on commas and parsed
token by token; otherwise the default is `range(1, num_pages + 1)`. -/
def pagesToProcess (ocrPages : Option String) (numPages : Int) : Option (List Int) :=
  match ocrPages with
  | some s =>
    if s.data ≠ [] then parseTokens (splitChar (',') s.data)
    else some (ascRange 1 numPages)
  | none => some (ascRange 1 numPages)

/-! ### Spec-side description of the page selector (§4.4, §8 of the spec)

These definitions follow the specification's words, to be compared
with `pagesToProcess`, which is translated from the source. -/

/-- A decimal integer in the strict sense of the specification: a
nonempty string of decimal digits. -/
def isDecNat (t : List Char) : Bool :=
  !t.isEmpty && t.all Char.isDigit

/-- Numeric value of a string of decimal digits. -/
def decVal (t : List Char) : Nat :=
  t.foldl (fun a c => a * 10 + (c.toNat - 48)) 0

/-- Case split of `specTokenWf` on the dash-split of the token. -/
def specTokenWfAux : List (List Char) → Bool
  | [a] => isDecNat a
  | [a, b] => isDecNat a && isDecNat b
  | _ => false

/-- Spec-side well-formedness of one page-spec token: a decimal integer,
or a dash-separated pair of exactly two decimal integers. -/
def specTokenWf (t : List Char) : Bool :=
  specTokenWfAux (splitChar ('-') t)

/-- Spec-side ascending inclusive sequence `A..B`. -/
def specAsc (a b : Int) : List Int :=
  (List.range (b + 1 - a).toNat).map (fun (i : Nat) => a + (i : Int))

/-- Spec-side descending inclusive sequence `A, A-1, ..., B`. -/
def specDesc (a b : Int) : List Int :=
  (List.range (a + 1 - b).toNat).map (fun (i : Nat) => a - (i : Int))

/-- Case split of `specTokenExpand` on the dash-split of the token. -/
def specTokenExpandAux : List (List Char) → List Int
  | [a] => [(decVal a : Int)]
  | [a, b] =>
    if (decVal a : Int) ≤ (decVal b : Int) then specAsc (decVal a) (decVal b)
    else specDesc (decVal a) (decVal b)
  | _ => []

/-- Spec-side expansion of one well-formed token: the single integer
for a plain token; the ascending sequence `A..B` when `A ≤ B`; the
descending sequence `A, A-1, ..., B` when `A > B`. -/
def specTokenExpand (t : List Char) : List Int :=
  specTokenExpandAux (splitChar ('-') t)

/-- Case split of `badToken` on the dash-split of a dashful token. -/
def badTokenDash : List (List Char) → Bool
  | [a, b] => (pyInt a).isNone || (pyInt b).isNone
  | _ => true

/-- A token on which the parser of `ocr_file` raises: either it has a
dash and its dash-split does not have exactly two parts each accepted
by Python's `int`, or it has no dash and `int` rejects it. -/
def badToken (t : List Char) : Bool :=
  if t.contains ('-') then badTokenDash (splitChar ('-') t)
  else (pyInt t).isNone

/-! ### Filesystem-level helpers of `convert` -/

/-- `l` is a prefix of `s`, char by char: Python's `str.startswith`. -/
def strStarts (l s : List Char) : Bool :=
  match l, s with
  | [], _ => true
  | _ :: _, [] => false
  | a :: as, b :: bs => a = b && strStarts as bs

/-- `mt.startswith(pre)` on strings. -/
def pyStartsWith (mt pre : String) : Bool :=
  strStarts pre.data mt.data

/-- Index of the last occurrence of `c`, if any. -/
def rfindIdx (c : Char) : List Char → Option Nat
  | [] => none
  | x :: xs =>
    match rfindIdx c xs with
    | some i => some (i + 1)
    | none => if x = c then some 0 else none

/-- Final path component: the characters after the last `/` (the model
assumes a path without a trailing slash, as `convert` receives). -/
def lastComponent (cs : List Char) : List Char :=
  cs.foldl (fun acc c => if c = ('/') then [] else acc ++ [c]) []

/-- `pathlib.Path(path).suffix`: the extension of the final component,
i.e. `name[i:]` for the last dot index `i` when `0 < i < len(name) - 1`,
else the empty string. -/
def pathSuffix (path : String) : String :=
  let name := lastComponent path.data
  match rfindIdx ('.') name with
  | none => ("")
  | some i => if 0 < i && i + 1 < name.length then ⟨name.drop i⟩ else ("")

/-- `isalnum_in_file` (lines 243-253) reads the file line by line and
reports whether any character is alphanumeric; equivalently, whether
any character of the file's content is alphanumeric (ASCII model of
`str.isalnum`). -/
def isalnumStr (s : String) : Bool :=
  s.data.any Char.isAlphanum

/-! ### The external-process environment

`ocr_file` and `convert` consume external tools only through the exit
status and the text each invocation produces.  `Env` records those
observables: it is the shallow embedding of the file system and of the
external page-count, rasterizer and OCR processes. -/

/-- Observables of one page-count tool run (`get_pages_in_pdf` /
`get_pages_in_djvu`): `count` is `result.stdout` after the
literal-eval of `convert_result_from_shell_cmd` turned it into an
integer, `returncode` the tool's exit status.  Both the pdf and the
djvu tool are modelled by this single oracle since `ocr_file` consumes
only the returned pair. -/
structure PageCountRes where
  count : Int
  returncode : Int
deriving DecidableEq

/-- The environment of one `convert` run. -/
structure Env where
  /-- `get_mime_type(input_file)`: `mimetypes.guess_type` returns
  `None` (here `none`) for an undetectable type. -/
  mimeType : Option String
  /-- Content read from the input file when it is plain text. -/
  plainContent : String
  /-- Result of the page-count tool on the input file. -/
  pageCount : PageCountRes
  /-- Exit status of `page_convert_cmd` (rasterizer) on a given page. -/
  raster : Int → Int
  /-- Exit status of the OCR backend on a given page's raster image,
  and the text it wrote to the page's temp text file. -/
  ocr : Int → Int × String
  /-- For the direct image branch: the backend's exit status and the
  text it wrote to the output file. -/
  imageOcr : Int × String
  /-- `name in globals()`: whether a name is bound at module level (the
  dynamic namespace the backend is looked up in). -/
  globalsContains : String → Bool

/-- Observables of one `ocr_file` run. -/
structure OcrRet where
  /-- The integer `ocr_file` returned. -/
  code : Int
  /-- Text written to the output file (`none` if `ocr_file` returned
  before the final write; in the image branch, what the backend wrote
  there). -/
  written : Option String
  /-- Pages passed to `page_convert_cmd`, in order. -/
  rasterized : List Int
  /-- Number of OCR backend invocations. -/
  ocrCalls : Nat
  /-- Whether a page-count tool was invoked. -/
  pageCounted : Bool
deriving DecidableEq

/-- One iteration of the per-page loop of `ocr_file` (lines 338-369):
rasterize the page; on exit status 0, evaluate the backend by name -
with no defensive membership check, so an unknown name raises an
uncaught `NameError` (`none`) - and on OCR exit status 0 read the temp
text file.  The returned string is the page's contribution to the
accumulator (empty on a skipped page). -/
def ocrPageStep (env : Env) (ocrCommand : String) (page : Int) : Option String :=
  if env.raster page = 0 then
    if env.globalsContains ocrCommand then
      some (if (env.ocr page).1 = 0 then (env.ocr page).2 else (""))
    else none
  else some ("")

/-- The whole per-page loop: pages in order, each contributing its
`ocrPageStep` text to the accumulator; also counts backend
invocations.  An exception in an iteration propagates (`none`). -/
def runPages (env : Env) (ocrCommand : String) : List Int → Option (String × Nat)
  | [] => some (("", 0))
  | p :: ps =>
    match ocrPageStep env ocrCommand p with
    | none => none
    | some t =>
      match runPages env ocrCommand ps with
      | none => none
      | some (rest, n) =>
        some (t ++ rest, n + (if env.raster p = 0 then 1 else 0))

/-- The pdf/djvu branch of `ocr_file` after the mime dispatch (lines
303-374): abort when the page-count result's returncode equals 1;
abort when the backend name is not bound in `globals()`; compute the
pages to process (a parse error is an uncaught exception); run the
per-page loop; write the accumulator to the output file and return 0.
The pdf and djvu branches differ only in which external tools `env`
models. -/
def docBranch (env : Env) (ocrCommand : String) (ocrPages : Option String) :
    Option OcrRet :=
  if env.pageCount.returncode = 1 then
    some ⟨1, none, [], 0, true⟩
  else if !env.globalsContains ocrCommand then
    some ⟨1, none, [], 0, true⟩
  else
    match pagesToProcess ocrPages env.pageCount.count with
    | none => none
    | some pages =>
      match runPages env ocrCommand pages with
      | none => none
      | some (text, n) => some ⟨0, some text, pages, n, true⟩

/-- `ocr_file` (lines 258-374).  A `none` mime type raises an uncaught
`AttributeError` at `mime_type.startswith` (`none` result).  The image
branch invokes the backend directly on the input file - the backend
writes the output file itself - and returns 0 regardless of the
backend's exit status; an unsupported mime type returns 1. -/
def ocrFile (env : Env) (mimeType : Option String) (ocrCommand : String)
    (ocrPages : Option String) : Option OcrRet :=
  match mimeType with
  | none => none
  | some mt =>
    if pyStartsWith mt ("application/pdf") then
      docBranch env ocrCommand ocrPages
    else if pyStartsWith mt ("image/vnd.djvu") then
      docBranch env ocrCommand ocrPages
    else if pyStartsWith mt ("image/") then
      if env.globalsContains ocrCommand then
        some ⟨0, some (env.imageOcr).2, [], 1, false⟩
      else
        some ⟨1, none, [], 0, false⟩
    else
      some ⟨1, none, [], 0, false⟩

/-- Value returned by `convert`: extracted text, or an integer status
code. -/
inductive ConvertRet where
  | text (s : String)
  | code (n : Int)
deriving DecidableEq

/-- Observables of one `convert` run. -/
structure ConvertOut where
  /-- The value `convert` returned. -/
  ret : ConvertRet
  /-- Content `convert` left at the caller-named output path (`none`
  when it never wrote or created that path; models a fresh path). -/
  namedOutContent : Option String
  /-- Whether a temporary output file was created (`mkstemp`). -/
  tempCreated : Bool
  /-- Whether `convert` deleted its output file at the end. -/
  outputDeleted : Bool
  /-- Pages passed to the rasterizer, in order. -/
  rasterized : List Int
  /-- Number of OCR backend invocations. -/
  ocrCalls : Nat
  /-- Whether a page-count tool was invoked. -/
  pageCounted : Bool
deriving DecidableEq

/-- Lines 176-203 of `convert`, common to the temp-output
(`returnTxt = true`) and named-output cases: run `ocr_file`; a nonzero
return is an overall failure (the temp output file, if any, is not
deleted on this path); otherwise validate the written content with
`isalnum_in_file` - on failure return 1 and delete the output only if
temporary, on success return the text (temp case, file deleted after
the read) or 0 (named case). -/
def convertBody (env : Env) (ocrCommand : String) (ocrPages : Option String)
    (returnTxt : Bool) : Option ConvertOut :=
  match ocrFile env env.mimeType ocrCommand ocrPages with
  | none => none
  | some r =>
    if r.code ≠ 0 then
      some ⟨.code 1, if returnTxt then none else some (r.written.getD ("")),
            returnTxt, false, r.rasterized, r.ocrCalls, r.pageCounted⟩
    else
      let content := r.written.getD ("")
      if isalnumStr content then
        if returnTxt then
          some ⟨.text content, none, true, true,
                r.rasterized, r.ocrCalls, r.pageCounted⟩
        else
          some ⟨.code 0, some content, false, false,
                r.rasterized, r.ocrCalls, r.pageCounted⟩
      else
        some ⟨.code 1, if returnTxt then none else some content,
              returnTxt, returnTxt, r.rasterized, r.ocrCalls, r.pageCounted⟩

/-- `convert` (lines 140-203).  A plain-text input short-circuits:
text returned (no output path) or 0 (output path), nothing else
happens.  Otherwise the destination is resolved - a temp file when no
path is given; a named path must have suffix `.txt` (else return 1
before anything is created) and is touched into existence - and the
body runs. -/
def convert (env : Env) (outputFile : Option String) (ocrCommand : String)
    (ocrPages : Option String) : Option ConvertOut :=
  if env.mimeType = some ("text/plain") then
    match outputFile with
    | none => some ⟨.text env.plainContent, none, false, false, [], 0, false⟩
    | some _ => some ⟨.code 0, none, false, false, [], 0, false⟩
  else
    match outputFile with
    | none => convertBody env ocrCommand ocrPages true
    | some path =>
      if pathSuffix path ≠ (".txt") then
        some ⟨.code 1, none, false, false, [], 0, false⟩
      else
        convertBody env ocrCommand ocrPages false

/-! ### Concrete environments used to instantiate the theorems -/

/-- A pdf input with two pages, a working rasterizer and a working OCR
backend, the only known global name being the default backend. -/
def envPdfOk : Env :=
  { mimeType := some ("application/pdf"), plainContent := ("")
    pageCount := ⟨2, 0⟩
    raster := fun _ => 0
    ocr := fun p => (0, if p == 1 then ("pg1 ") else ("pg2 "))
    imageOcr := (0, ("img"))
    globalsContains := fun c => c == ("tesseract_wrapper") }

/-- Like `envPdfOk` but every rasterization exits with status 1. -/
def envAllFail : Env :=
  { envPdfOk with raster := fun _ => 1 }

/-- A plain-text input whose content is `hello`. -/
def envPlain : Env :=
  { envPdfOk with mimeType := some ("text/plain"), plainContent := ("hello") }

/-- A pdf input whose page-count tool prints `1` but exits with
status 2. -/
def envRc2 : Env :=
  { envPdfOk with pageCount := ⟨1, 2⟩, ocr := fun _ => (0, ("x")) }

/-- An input whose mime type cannot be detected
(`mimetypes.guess_type` returned `None`). -/
def envNoMime : Env :=
  { envPdfOk with mimeType := none }

/-! ### Helper lemmas -/

theorem contains_iff {l : List Char} {a : Char} : l.contains a = true ↔ a ∈ l :=
  List.elem_iff

theorem digit_not_ws {c : Char} (h : c.isDigit = true) : isPyWs c = false := by
  cases hw : isPyWs c
  · rfl
  · exfalso
    unfold isPyWs at hw
    simp only [Bool.or_eq_true, decide_eq_true_eq] at hw
    rcases hw with ((((rfl | rfl) | rfl) | rfl) | rfl) | rfl <;>
      exact absurd h (by decide)

theorem digit_ne {c : Char} (h : c.isDigit = true) :
    c ≠ ('+') ∧ c ≠ ('-') ∧ c ≠ ('_') := by
  refine ⟨?_, ?_, ?_⟩ <;> (rintro rfl; exact absurd h (by decide))

theorem dropWhile_ws_digits {l : List Char} (h : l.all Char.isDigit = true) :
    l.dropWhile isPyWs = l := by
  cases l with
  | nil => rfl
  | cons c cs =>
    simp only [List.all_cons, Bool.and_eq_true] at h
    simp [List.dropWhile_cons, digit_not_ws h.1]

theorem stripWs_digits {l : List Char} (h : l.all Char.isDigit = true) :
    stripWs l = l := by
  unfold stripWs
  rw [dropWhile_ws_digits h, dropWhile_ws_digits (by simpa using h),
    List.reverse_reverse]

theorem pyDigitsGo_digits :
    ∀ (l : List Char) (acc : Nat), l.all Char.isDigit = true →
      pyDigitsGo acc l = some (l.foldl (fun a c => a * 10 + (c.toNat - 48)) acc) := by
  intro l
  induction l with
  | nil => intro acc _; rfl
  | cons c cs ih =>
    intro acc h
    simp only [List.all_cons, Bool.and_eq_true] at h
    unfold pyDigitsGo
    rw [if_neg (digit_ne h.1).2.2, if_pos h.1, ih _ h.2, List.foldl_cons]

theorem pyDigits_digits {l : List Char} (hne : l ≠ []) (h : l.all Char.isDigit = true) :
    pyDigits l = some (decVal l) := by
  cases l with
  | nil => exact absurd rfl hne
  | cons c cs =>
    simp only [List.all_cons, Bool.and_eq_true] at h
    rw [pyDigits, if_pos h.1, pyDigitsGo_digits cs _ h.2]
    unfold decVal
    rw [List.foldl_cons]
    norm_num

theorem pyInt_digits {l : List Char} (hne : l ≠ []) (h : l.all Char.isDigit = true) :
    pyInt l = some ((decVal l : Nat) : Int) := by
  unfold pyInt
  rw [stripWs_digits h]
  cases l with
  | nil => exact absurd rfl hne
  | cons c cs =>
    simp only [List.all_cons, Bool.and_eq_true] at h
    rw [pyIntCore, if_neg (digit_ne h.1).1, if_neg (digit_ne h.1).2.1,
      pyDigits_digits (by simp) (by simp [h.1, h.2])]
    rfl

theorem splitChar_ne_nil (sep : Char) (l : List Char) : splitChar sep l ≠ [] := by
  cases l with
  | nil => simp [splitChar]
  | cons c rest =>
    rw [splitChar]
    rcases h : splitChar sep rest with _ | ⟨t, ts⟩
    · simp [splitCons]
    · rw [splitCons]
      split <;> simp

theorem splitChar_shape (sep : Char) : ∀ l : List Char,
    (l.contains sep = false ∧ splitChar sep l = [l]) ∨
    (l.contains sep = true ∧ 2 ≤ (splitChar sep l).length) := by
  intro l
  induction l with
  | nil => left; exact ⟨rfl, rfl⟩
  | cons c rest ih =>
    by_cases hc : c = sep
    · right
      subst hc
      refine ⟨by simp [List.contains_cons], ?_⟩
      rw [splitChar]
      rcases hsp : splitChar c rest with _ | ⟨t, ts⟩
      · exact absurd hsp (splitChar_ne_nil c rest)
      · simp [splitCons]
    · rw [splitChar]
      rcases hsp : splitChar sep rest with _ | ⟨t, ts⟩
      · exact absurd hsp (splitChar_ne_nil sep rest)
      · rcases ih with ⟨h1, h2⟩ | ⟨h1, h2⟩
        · left
          have h3 := hsp.symm.trans h2
          injection h3 with h4 h5
          constructor
          · rw [List.contains_cons, h1]
            simp only [Bool.or_false, beq_iff_eq]
            exact decide_eq_false (fun h5 => hc h5.symm)
          · rw [splitCons, if_neg hc, h4, h5]
        · right
          refine ⟨by rw [List.contains_cons, h1]; simp, ?_⟩
          rw [splitCons, if_neg hc]
          have h6 : (t :: ts).length = (splitChar sep rest).length := by rw [hsp]
          simp only [List.length_cons] at h6 ⊢
          omega

theorem range_reverse (n : Nat) :
    (List.range n).reverse = (List.range n).map (fun i => n - 1 - i) := by
  rw [List.range_eq_range', List.reverse_range', ← List.range_eq_range']
  simp

theorem ascRange_reverse {a b : Int} (h : a ≤ b) :
    (ascRange a b).reverse = specDesc b a := by
  unfold ascRange specDesc
  rw [← List.map_reverse, range_reverse, List.map_map]
  apply List.map_congr_left
  intro i hi
  rw [List.mem_range] at hi
  have hn : ((b + 1 - a).toNat : Int) = b + 1 - a := by omega
  simp only [Function.comp_apply]
  omega

theorem expandPair_eq_spec (A B : Int) :
    expandPair A B = if A ≤ B then specAsc A B else specDesc A B := by
  unfold expandPair
  by_cases h : A ≤ B
  · rw [if_neg (not_lt.mpr h), if_pos h]
    rfl
  · have hlt : B < A := not_le.mp h
    rw [if_pos hlt, if_neg h]
    exact ascRange_reverse (le_of_lt hlt)

theorem isDecNat_parts {t : List Char} (h : isDecNat t = true) :
    t ≠ [] ∧ t.all Char.isDigit = true := by
  unfold isDecNat at h
  simp only [Bool.and_eq_true] at h
  refine ⟨?_, h.2⟩
  intro h0
  rw [h0] at h
  exact absurd h.1 (by decide)

theorem tokenPages_of_wf {t : List Char} (h : specTokenWf t = true) :
    tokenPages t = some (specTokenExpand t) := by
  unfold specTokenWf at h
  unfold tokenPages specTokenExpand
  rcases splitChar_shape ('-') t with ⟨hc, hs⟩ | ⟨hc, hs⟩
  · rw [hs] at h ⊢
    rw [specTokenWfAux] at h
    rcases isDecNat_parts h with ⟨hne, hdig⟩
    simp only [hc, Bool.false_eq_true, if_false]
    rw [pyInt_digits hne hdig, specTokenExpandAux, tokenPagesNoDash]
  · rcases hsp : splitChar ('-') t with _ | ⟨a, _ | ⟨b, _ | ⟨c, rest⟩⟩⟩
    · exact absurd hsp (splitChar_ne_nil ('-') t)
    · rw [hsp] at hs
      simp at hs
    · rw [hsp] at h
      rw [specTokenWfAux] at h
      simp only [Bool.and_eq_true] at h
      rcases isDecNat_parts h.1 with ⟨hne1, hdig1⟩
      rcases isDecNat_parts h.2 with ⟨hne2, hdig2⟩
      rw [if_pos hc, tokenPagesDash, pyInt_digits hne1 hdig1,
        pyInt_digits hne2 hdig2, pairPages, specTokenExpandAux,
        expandPair_eq_spec]
    · rw [hsp] at h
      have h0 : specTokenWfAux (a :: b :: c :: rest) = false := rfl
      rw [h0] at h
      exact absurd h (by decide)

theorem tokenPages_of_bad {t : List Char} (h : badToken t = true) :
    tokenPages t = none := by
  unfold badToken at h
  unfold tokenPages
  cases hc : t.contains ('-')
  · rw [hc] at h
    simp only [Bool.false_eq_true, if_false] at h ⊢
    rcases hp : pyInt t with _ | n
    · rw [tokenPagesNoDash]
    · rw [hp] at h
      simp at h
  · rw [hc] at h
    simp only [if_true] at h ⊢
    rcases hsp : splitChar ('-') t with _ | ⟨a, _ | ⟨b, _ | ⟨c, rest⟩⟩⟩
    · rfl
    · rfl
    · rw [hsp] at h
      rw [badTokenDash] at h
      rw [tokenPagesDash]
      rcases hpa : pyInt a with _ | na <;> rcases hpb : pyInt b with _ | nb
      · rfl
      · rfl
      · rfl
      · simp [hpa, hpb] at h
    · rfl

theorem parseTokens_wf : ∀ ts : List (List Char), ts.all specTokenWf = true →
    parseTokens ts = some ((ts.map specTokenExpand).flatten) := by
  intro ts
  induction ts with
  | nil => intro _; rfl
  | cons t ts ih =>
    intro h
    rw [List.all_cons] at h
    simp only [Bool.and_eq_true] at h
    rw [parseTokens, tokenPages_of_wf h.1, ih h.2]
    simp

theorem parseTokens_bad : ∀ ts : List (List Char),
    (∃ t ∈ ts, badToken t = true) → parseTokens ts = none := by
  intro ts
  induction ts with
  | nil =>
    rintro ⟨t, ht, _⟩
    exact absurd ht (List.not_mem_nil t)
  | cons t ts ih =>
    rintro ⟨u, hu, hbad⟩
    rcases List.mem_cons.mp hu with rfl | hmem
    · rw [parseTokens, tokenPages_of_bad hbad]
    · rw [parseTokens]
      rcases htp : tokenPages t with _ | ps
      · rfl
      · rw [ih ⟨u, hmem, hbad⟩]
        rfl

/-! ### Claim C1 -/

/-- C1: for every well-formed page-spec string (comma-separated tokens,
each a decimal integer or a dash-separated pair of decimal integers),
the computed page sequence is the concatenation, in token order, of the
single integer for a plain token, the ascending inclusive sequence for
a pair `A-B` with `A ≤ B`, and the descending inclusive sequence for a
pair with `A > B`; duplicates across tokens are preserved. -/
theorem c1_page_spec_expansion (s : String) (N : Int)
    (h : (splitChar (',') s.data).all specTokenWf = true) :
    pagesToProcess (some s) N =
      some (((splitChar (',') s.data).map specTokenExpand).flatten) := by
  have hne : s.data ≠ [] := by
    intro h0
    rw [h0] at h
    exact absurd h (by decide)
  unfold pagesToProcess
  dsimp only
  rw [if_pos hne]
  exact parseTokens_wf _ h

/-- Witness for C1 at the spec's own mixed example `1,3,5-4`. -/
theorem c1_page_spec_expansion_witness :
    (splitChar (',') ("1,3,5-4").data).all specTokenWf = true ∧
    pagesToProcess (some ("1,3,5-4")) 9 = some [1, 3, 5, 4] := by
  constructor
  · decide
  · rw [c1_page_spec_expansion ("1,3,5-4") 9 (by decide)]
    decide

/-! ### Claim C10 -/

/-- C10 counterexample: the token `+1` is neither a decimal integer nor
a dash-separated pair of decimal integers, yet the page-selection code
accepts it without raising (Python's `int` allows a leading sign), so
a malformed-token spec string does not always raise. -/
theorem c10_malformed_token_not_raising :
    specTokenWf (("+1").data) = false ∧
    pagesToProcess (some ("+1")) 5 = some [1] := by decide

/-- C10 (amended): for every non-empty page-spec string containing a
token rejected by the parsing code - no dash and rejected by Python's
`int`, or a dash split without exactly two `int`-accepted parts - the
page-selection code raises an uncaught exception (modelled by `none`)
instead of returning an error status. -/
theorem c10_bad_token_raises (s : String) (N : Int) (hne : s.data ≠ [])
    (h : ∃ t ∈ splitChar (',') s.data, badToken t = true) :
    pagesToProcess (some s) N = none := by
  unfold pagesToProcess
  dsimp only
  rw [if_pos hne]
  exact parseTokens_bad _ h

/-- Witness for the amended C10 at the spec string `1,a`. -/
theorem c10_bad_token_raises_witness :
    (("1,a").data ≠ [] ∧ badToken (("a").data) = true) ∧
    pagesToProcess (some ("1,a")) 3 = none := by
  refine ⟨⟨by decide, by decide⟩, ?_⟩
  exact c10_bad_token_raises ("1,a") 3 (by decide)
    ⟨("a").data, by decide, by decide⟩

/-! ### Pipeline helper lemmas -/

/-- A mime type with a pdf, djvu or image prefix is not `text/plain`. -/
theorem mime_not_plain {mt : String}
    (h : pyStartsWith mt ("application/pdf") = true ∨
      pyStartsWith mt ("image/vnd.djvu") = true ∨
      pyStartsWith mt ("image/") = true) :
    mt ≠ ("text/plain") := by
  intro h0
  rw [h0] at h
  rcases h with h | h | h <;> exact absurd h (by decide)

/-- For a pdf or djvu mime type, `ocr_file` runs the document branch. -/
theorem ocrFile_doc (env : Env) (mt oc : String) (op : Option String)
    (hdoc : pyStartsWith mt ("application/pdf") = true ∨
      pyStartsWith mt ("image/vnd.djvu") = true) :
    ocrFile env (some mt) oc op = docBranch env oc op := by
  unfold ocrFile
  dsimp only
  rcases hdoc with h | h
  · rw [if_pos h]
  · by_cases h2 : pyStartsWith mt ("application/pdf") = true
    · rw [if_pos h2]
    · rw [if_neg h2, if_pos h]

/-- The document branch aborts on a page-count returncode of exactly 1,
before any page work. -/
theorem docBranch_rc1 (env : Env) (oc : String) (op : Option String)
    (hrc : env.pageCount.returncode = 1) :
    docBranch env oc op = some ⟨1, none, [], 0, true⟩ := by
  unfold docBranch
  rw [if_pos hrc]

/-- The document branch aborts on an unknown backend name, before any
page work. -/
theorem docBranch_unknown (env : Env) (oc : String) (op : Option String)
    (hrc : env.pageCount.returncode ≠ 1)
    (hu : env.globalsContains oc = false) :
    docBranch env oc op = some ⟨1, none, [], 0, true⟩ := by
  unfold docBranch
  rw [if_neg hrc, if_pos (by rw [hu]; rfl)]

/-- The document branch with a known backend and a parsed page list
rasterizes exactly those pages, writes the loop's accumulator and
returns 0. -/
theorem docBranch_pages (env : Env) (oc : String) (op : Option String)
    (pages : List Int) (t : String) (n : Nat)
    (hrc : env.pageCount.returncode ≠ 1)
    (hknown : env.globalsContains oc = true)
    (hp : pagesToProcess op env.pageCount.count = some pages)
    (hrun : runPages env oc pages = some (t, n)) :
    docBranch env oc op = some ⟨0, some t, pages, n, true⟩ := by
  unfold docBranch
  rw [if_neg hrc, if_neg (by rw [hknown]; simp), hp]
  dsimp only
  rw [hrun]

/-- A page whose rasterization or OCR exits nonzero contributes no
text to the accumulator (and raises nothing, the backend being
known). -/
theorem ocrPageStep_fail (env : Env) (oc : String) (p : Int)
    (hknown : env.globalsContains oc = true)
    (hfail : env.raster p ≠ 0 ∨ (env.raster p = 0 ∧ (env.ocr p).1 ≠ 0)) :
    ocrPageStep env oc p = some ("") := by
  unfold ocrPageStep
  rcases hfail with h | ⟨h0, h1⟩
  · rw [if_neg h]
  · rw [if_pos h0, if_pos (by rw [hknown]), if_neg h1]

/-- With a known backend the per-page loop never raises: it produces
some accumulated text and a count of backend invocations. -/
theorem runPages_known (env : Env) (oc : String)
    (hknown : env.globalsContains oc = true) :
    ∀ pages : List Int, ∃ t n, runPages env oc pages = some (t, n) := by
  intro pages
  induction pages with
  | nil => exact ⟨(""), 0, rfl⟩
  | cons p ps ih =>
    rcases ih with ⟨t, n, ih⟩
    unfold runPages
    by_cases h0 : env.raster p = 0
    · refine ⟨(if (env.ocr p).1 = 0 then (env.ocr p).2 else ("")) ++ t,
        n + 1, ?_⟩
      unfold ocrPageStep
      rw [if_pos h0, if_pos (by rw [hknown]), ih]
      dsimp only
      rw [if_pos h0]
    · refine ⟨("") ++ t, n + 0, ?_⟩
      unfold ocrPageStep
      rw [if_neg h0, ih]
      dsimp only
      rw [if_neg h0]

/-- When every page fails at rasterization or OCR, the loop accumulates
the empty string (and still visits every page). -/
theorem runPages_all_fail (env : Env) (oc : String)
    (hknown : env.globalsContains oc = true) :
    ∀ pages : List Int,
      (∀ p ∈ pages, env.raster p ≠ 0 ∨ (env.raster p = 0 ∧ (env.ocr p).1 ≠ 0)) →
      ∃ n, runPages env oc pages = some (("", n)) := by
  intro pages
  induction pages with
  | nil => exact fun _ => ⟨0, rfl⟩
  | cons p ps ih =>
    intro hfail
    rcases ih (fun q hq => hfail q (List.mem_cons_of_mem p hq)) with ⟨n, ih⟩
    refine ⟨n + (if env.raster p = 0 then 1 else 0), ?_⟩
    unfold runPages
    rw [ocrPageStep_fail env oc p hknown (hfail p (List.mem_cons_self p ps)), ih]
    rfl

/-- `convert` on a non-plain-text input with no output path, or with a
`.txt` output path, runs the common body (temp-output and named-output
variants). -/
theorem convert_eq_body (env : Env) (oc : String) (op : Option String)
    (path : String) (hplain : env.mimeType ≠ some ("text/plain"))
    (hsuf : pathSuffix path = (".txt")) :
    convert env none oc op = convertBody env oc op true ∧
    convert env (some path) oc op = convertBody env oc op false := by
  constructor <;> unfold convert <;> rw [if_neg hplain] <;> dsimp only
  rw [if_neg (not_not_intro hsuf)]

/-- Evaluation of the common body when `ocr_file` returned 0 and the
written content fails the alphanumeric validation: status 1, temp
output deleted, named output left in place. -/
theorem convertBody_invalid (env : Env) (oc : String) (op : Option String)
    (r : OcrRet) (hr : ocrFile env env.mimeType oc op = some r)
    (hc : r.code = 0) (hval : isalnumStr (r.written.getD ("")) = false) :
    convertBody env oc op true =
      some ⟨.code 1, none, true, true, r.rasterized, r.ocrCalls, r.pageCounted⟩ ∧
    convertBody env oc op false =
      some ⟨.code 1, some (r.written.getD ("")), false, false,
        r.rasterized, r.ocrCalls, r.pageCounted⟩ := by
  constructor <;> unfold convertBody <;> rw [hr] <;> dsimp only <;>
    rw [if_neg (by rw [hc]; simp), if_neg (by rw [hval]; simp)] <;> rfl

/-- Evaluation of the common body when `ocr_file` returned 0 and the
written content passes the alphanumeric validation: the text is
returned (temp case) or status 0 with the text persisted (named
case). -/
theorem convertBody_valid (env : Env) (oc : String) (op : Option String)
    (r : OcrRet) (hr : ocrFile env env.mimeType oc op = some r)
    (hc : r.code = 0) (hval : isalnumStr (r.written.getD ("")) = true) :
    convertBody env oc op true =
      some ⟨.text (r.written.getD ("")), none, true, true,
        r.rasterized, r.ocrCalls, r.pageCounted⟩ ∧
    convertBody env oc op false =
      some ⟨.code 0, some (r.written.getD ("")), false, false,
        r.rasterized, r.ocrCalls, r.pageCounted⟩ := by
  constructor <;> unfold convertBody <;> rw [hr] <;> dsimp only <;>
    rw [if_neg (by rw [hc]; simp), if_pos (by rw [hval])] <;> rfl

/-- Evaluation of the common body when `ocr_file` returned nonzero:
overall failure with status 1; the temp output file is not deleted on
this path. -/
theorem convertBody_ocr_failed (env : Env) (oc : String) (op : Option String)
    (r : OcrRet) (hr : ocrFile env env.mimeType oc op = some r)
    (hc : r.code ≠ 0) :
    convertBody env oc op true =
      some ⟨.code 1, none, true, false, r.rasterized, r.ocrCalls, r.pageCounted⟩ ∧
    convertBody env oc op false =
      some ⟨.code 1, some (r.written.getD ("")), false, false,
        r.rasterized, r.ocrCalls, r.pageCounted⟩ := by
  constructor <;> unfold convertBody <;> rw [hr] <;> dsimp only <;>
    rw [if_pos hc] <;> rfl

/-- Exhaustive characterization of a successful `convertBody` run by
the `ocr_file` result it consumed. -/
theorem convertBody_cases (env : Env) (oc : String) (op : Option String)
    (rt : Bool) (out : ConvertOut)
    (h : convertBody env oc op rt = some out) :
    ∃ r, ocrFile env env.mimeType oc op = some r ∧
      ((r.code ≠ 0 ∧ out.ret = .code 1) ∨
       (r.code = 0 ∧ isalnumStr (r.written.getD ("")) = false ∧
         out.ret = .code 1) ∨
       (r.code = 0 ∧ isalnumStr (r.written.getD ("")) = true ∧
         out = (if rt then
             ⟨.text (r.written.getD ("")), none, true, true,
               r.rasterized, r.ocrCalls, r.pageCounted⟩
           else
             ⟨.code 0, some (r.written.getD ("")), false, false,
               r.rasterized, r.ocrCalls, r.pageCounted⟩))) := by
  unfold convertBody at h
  rcases hocr : ocrFile env env.mimeType oc op with _ | r <;> rw [hocr] at h
  · exact absurd h (by simp)
  · dsimp only at h
    refine ⟨r, rfl, ?_⟩
    by_cases hc : r.code ≠ 0
    · rw [if_pos hc] at h
      injection h with h'
      exact Or.inl ⟨hc, by rw [← h']⟩
    · rw [if_neg hc] at h
      by_cases hval : isalnumStr (r.written.getD ("")) = true
      · rw [if_pos hval] at h
        refine Or.inr (Or.inr ⟨of_not_not hc, hval, ?_⟩)
        cases rt
        · rw [if_neg (by decide)] at h
          injection h with h'
          rw [← h', if_neg (by decide)]
        · rw [if_pos rfl] at h
          injection h with h'
          rw [← h', if_pos rfl]
      · rw [if_neg hval] at h
        refine Or.inr (Or.inl ⟨of_not_not hc, by simpa using hval, ?_⟩)
        injection h with h'
        rw [← h']

/-! ### Claim C2 -/

/-- C2: a selected page whose rasterization exits nonzero, or whose OCR
exits nonzero after a successful rasterization, contributes no text and
processing continues with the next page (every selected page is still
rasterized and the final write still happens, `ocr_file` returning 0);
when every page fails this way, the output file is written with empty,
non-alphanumeric content and the overall conversion reports failure
(status 1) in both the temp-output and named-output cases. -/
theorem c2_per_page_failures_skipped (env : Env) (mt oc : String)
    (op : Option String) (pages : List Int) (path : String)
    (hmt : env.mimeType = some mt)
    (hdoc : pyStartsWith mt ("application/pdf") = true ∨
      pyStartsWith mt ("image/vnd.djvu") = true)
    (hrc : env.pageCount.returncode ≠ 1)
    (hknown : env.globalsContains oc = true)
    (hp : pagesToProcess op env.pageCount.count = some pages)
    (hsuf : pathSuffix path = (".txt"))
    (hfail : ∀ p ∈ pages,
      env.raster p ≠ 0 ∨ (env.raster p = 0 ∧ (env.ocr p).1 ≠ 0)) :
    (∀ p ∈ pages, ocrPageStep env oc p = some ("")) ∧
    ∃ n, ocrFile env env.mimeType oc op = some ⟨0, some (""), pages, n, true⟩ ∧
      convert env none oc op =
        some ⟨.code 1, none, true, true, pages, n, true⟩ ∧
      convert env (some path) oc op =
        some ⟨.code 1, some (""), false, false, pages, n, true⟩ := by
  have hplain : env.mimeType ≠ some ("text/plain") := by
    rw [hmt]
    intro h0
    injection h0 with h0'
    exact mime_not_plain (Or.elim hdoc Or.inl (fun h => Or.inr (Or.inl h))) h0'
  rcases runPages_all_fail env oc hknown pages hfail with ⟨n, hrun⟩
  have hocr : ocrFile env env.mimeType oc op =
      some ⟨0, some (""), pages, n, true⟩ := by
    rw [hmt, ocrFile_doc env mt oc op hdoc]
    exact docBranch_pages env oc op pages ("") n hrc hknown hp hrun
  refine ⟨fun p hp' => ocrPageStep_fail env oc p hknown (hfail p hp'),
    n, hocr, ?_, ?_⟩
  · exact ((convert_eq_body env oc op path hplain hsuf).1).trans
      ((convertBody_invalid env oc op _ hocr rfl rfl).1)
  · exact ((convert_eq_body env oc op path hplain hsuf).2).trans
      ((convertBody_invalid env oc op _ hocr rfl rfl).2)

/-- Witness for C2: both pages of `envAllFail` fail to rasterize; the
output is written empty and both conversion modes report failure. -/
theorem c2_per_page_failures_skipped_witness :
    (∀ p ∈ ([1, 2] : List Int),
      ocrPageStep envAllFail ("tesseract_wrapper") p = some ("")) ∧
    ∃ n, ocrFile envAllFail envAllFail.mimeType ("tesseract_wrapper") none =
        some ⟨0, some (""), [1, 2], n, true⟩ ∧
      convert envAllFail none ("tesseract_wrapper") none =
        some ⟨.code 1, none, true, true, [1, 2], n, true⟩ ∧
      convert envAllFail (some ("o.txt")) ("tesseract_wrapper") none =
        some ⟨.code 1, some (""), false, false, [1, 2], n, true⟩ :=
  c2_per_page_failures_skipped envAllFail ("application/pdf")
    ("tesseract_wrapper") none [1, 2] ("o.txt") rfl (Or.inl (by decide))
    (by decide) (by decide) (by decide) (by decide) (by decide)

/-! ### Claim C3 -/

/-- C3: once the output file has been written (`ocr_file` returned 0),
`convert` scans it for an alphanumeric character.  With none, it
returns failure status 1, deleting the output file when it was a
temporary file (no caller-supplied path) and leaving it on disk when
the caller named it.  With at least one alphanumeric character the
conversion succeeds: the text is returned in the temp-output case,
status 0 in the named-output case. -/
theorem c3_validation (env : Env) (oc : String) (op : Option String)
    (path : String) (r : OcrRet)
    (hr : ocrFile env env.mimeType oc op = some r) (hc : r.code = 0)
    (hplain : env.mimeType ≠ some ("text/plain"))
    (hsuf : pathSuffix path = (".txt")) :
    (isalnumStr (r.written.getD ("")) = false →
      convert env none oc op =
        some ⟨.code 1, none, true, true,
          r.rasterized, r.ocrCalls, r.pageCounted⟩ ∧
      convert env (some path) oc op =
        some ⟨.code 1, some (r.written.getD ("")), false, false,
          r.rasterized, r.ocrCalls, r.pageCounted⟩) ∧
    (isalnumStr (r.written.getD ("")) = true →
      convert env none oc op =
        some ⟨.text (r.written.getD ("")), none, true, true,
          r.rasterized, r.ocrCalls, r.pageCounted⟩ ∧
      convert env (some path) oc op =
        some ⟨.code 0, some (r.written.getD ("")), false, false,
          r.rasterized, r.ocrCalls, r.pageCounted⟩) := by
  constructor <;> intro hval
  · exact ⟨((convert_eq_body env oc op path hplain hsuf).1).trans
        ((convertBody_invalid env oc op r hr hc hval).1),
      ((convert_eq_body env oc op path hplain hsuf).2).trans
        ((convertBody_invalid env oc op r hr hc hval).2)⟩
  · exact ⟨((convert_eq_body env oc op path hplain hsuf).1).trans
        ((convertBody_valid env oc op r hr hc hval).1),
      ((convert_eq_body env oc op path hplain hsuf).2).trans
        ((convertBody_valid env oc op r hr hc hval).2)⟩

/-- Witness for C3 on a successful two-page OCR run: the accumulated
text passes validation, is returned in the temp case and persisted
with status 0 in the named case. -/
theorem c3_validation_witness :
    convert envPdfOk none ("tesseract_wrapper") none =
      some ⟨.text ("pg1 pg2 "), none, true, true, [1, 2], 2, true⟩ ∧
    convert envPdfOk (some ("out.txt")) ("tesseract_wrapper") none =
      some ⟨.code 0, some ("pg1 pg2 "), false, false, [1, 2], 2, true⟩ :=
  (c3_validation envPdfOk ("tesseract_wrapper") none ("out.txt")
    ⟨0, some ("pg1 pg2 "), [1, 2], 2, true⟩ (by decide) rfl (by decide)
    (by decide)).2 (by decide)

/-! ### Claim C4 -/

/-- C4: an input classified `text/plain` short-circuits the whole
pipeline: no external tool is invoked (no page count, no
rasterization, no OCR call), and with no output path the input file's
content is returned exactly as read. -/
theorem c4_plain_text_short_circuit (env : Env) (oc : String)
    (op : Option String) (path : String)
    (hm : env.mimeType = some ("text/plain")) :
    convert env none oc op =
      some ⟨.text env.plainContent, none, false, false, [], 0, false⟩ ∧
    convert env (some path) oc op =
      some ⟨.code 0, none, false, false, [], 0, false⟩ := by
  constructor <;> unfold convert <;> rw [if_pos hm]

/-- Witness for C4: the plain-text environment returns its content
`hello` untouched, with no tool invocations recorded. -/
theorem c4_plain_text_short_circuit_witness :
    convert envPlain none ("tesseract_wrapper") none =
      some ⟨.text ("hello"), none, false, false, [], 0, false⟩ ∧
    convert envPlain (some ("out.txt")) ("tesseract_wrapper") none =
      some ⟨.code 0, none, false, false, [], 0, false⟩ :=
  c4_plain_text_short_circuit envPlain ("tesseract_wrapper") none
    ("out.txt") rfl

/-! ### Claim C5 -/

/-- C5 counterexample: for a plain-text input with a caller-supplied
output path, `convert` reports success (status 0) yet writes nothing
at the path - the extracted text (the file content `hello`) is not
persisted, refuting the claim for plain-text inputs. -/
theorem c5_plain_text_not_persisted :
    envPlain.plainContent = ("hello") ∧
    convert envPlain (some ("out.txt")) ("tesseract_wrapper") none =
      some ⟨.code 0, none, false, false, [], 0, false⟩ := by decide

/-- C5 (amended): `convert` returns the extracted text on success when
called without an output path and always returns a status code (0 or
1) when called with one; for non-plain-text inputs, status 0 means the
text written by `ocr_file` (validated alphanumeric) is persisted at
the path; for plain-text inputs with an output path, `convert`
returns 0 without writing anything to the path. -/
theorem c5_returns_and_persists (env : Env) (oc : String)
    (op : Option String) (path : String) :
    (∀ out, convert env (some path) oc op = some out →
      out.ret = .code 0 ∨ out.ret = .code 1) ∧
    (∀ out, convert env none oc op = some out →
      (∃ s, out.ret = .text s) ∨ out.ret = .code 1) ∧
    (env.mimeType ≠ some ("text/plain") →
      ∀ out, convert env (some path) oc op = some out →
      out.ret = .code 0 →
      ∃ r, ocrFile env env.mimeType oc op = some r ∧ r.code = 0 ∧
        out.namedOutContent = some (r.written.getD ("")) ∧
        isalnumStr (r.written.getD ("")) = true) ∧
    (env.mimeType = some ("text/plain") →
      convert env (some path) oc op =
        some ⟨.code 0, none, false, false, [], 0, false⟩) := by
  refine ⟨?_, ?_, ?_, ?_⟩
  · intro out hout
    by_cases hm : env.mimeType = some ("text/plain")
    · rw [(c4_plain_text_short_circuit env oc op path hm).2] at hout
      injection hout with h'
      rw [← h']
      exact Or.inl rfl
    · unfold convert at hout
      rw [if_neg hm] at hout
      dsimp only at hout
      by_cases hsuf : pathSuffix path ≠ (".txt")
      · rw [if_pos hsuf] at hout
        injection hout with h'
        rw [← h']
        exact Or.inr rfl
      · rw [if_neg hsuf] at hout
        rcases convertBody_cases env oc op false out hout with
          ⟨r, _, ⟨_, h1⟩ | ⟨_, _, h1⟩ | ⟨_, _, h1⟩⟩
        · exact Or.inr h1
        · exact Or.inr h1
        · rw [h1, if_neg (by decide)]
          exact Or.inl rfl
  · intro out hout
    by_cases hm : env.mimeType = some ("text/plain")
    · rw [(c4_plain_text_short_circuit env oc op path hm).1] at hout
      injection hout with h'
      rw [← h']
      exact Or.inl ⟨env.plainContent, rfl⟩
    · unfold convert at hout
      rw [if_neg hm] at hout
      dsimp only at hout
      rcases convertBody_cases env oc op true out hout with
        ⟨r, _, ⟨_, h1⟩ | ⟨_, _, h1⟩ | ⟨_, _, h1⟩⟩
      · exact Or.inr h1
      · exact Or.inr h1
      · rw [h1, if_pos rfl]
        exact Or.inl ⟨r.written.getD (""), rfl⟩
  · intro hm out hout hret
    unfold convert at hout
    rw [if_neg hm] at hout
    dsimp only at hout
    by_cases hsuf : pathSuffix path ≠ (".txt")
    · rw [if_pos hsuf] at hout
      injection hout with h'
      rw [← h'] at hret
      exact absurd hret (by simp)
    · rw [if_neg hsuf] at hout
      rcases convertBody_cases env oc op false out hout with
        ⟨r, hocr, ⟨_, h1⟩ | ⟨_, _, h1⟩ | ⟨hc, hval, h1⟩⟩
      · rw [h1] at hret
        exact absurd hret (by simp)
      · rw [h1] at hret
        exact absurd hret (by simp)
      · rw [if_neg (by decide)] at h1
        refine ⟨r, hocr, hc, ?_, hval⟩
        rw [h1]
  · intro hm
    exact (c4_plain_text_short_circuit env oc op path hm).2

/-- Witness for the amended C5: the plain-text case with a named
output path returns status 0 with nothing persisted. -/
theorem c5_returns_and_persists_witness :
    convert envPlain (some ("o2.txt")) ("tesseract_wrapper") none =
      some ⟨.code 0, none, false, false, [], 0, false⟩ :=
  (c5_returns_and_persists envPlain ("tesseract_wrapper") none
    ("o2.txt")).2.2.2 rfl

/-! ### Claim C6 -/

/-- C6 counterexample: the page-count tool of `envRc2` prints `1` but
exits with status 2 - a failing exit status by the nonzero convention -
yet `ocr_file` does not abort: it proceeds to rasterize and OCR page 1
and returns success, because the source only aborts on a returncode of
exactly 1. -/
theorem c6_nonzero_pagecount_not_aborting :
    envRc2.pageCount.returncode = 2 ∧
    ocrFile envRc2 (some ("application/pdf")) ("tesseract_wrapper")
      (some ("1")) = some ⟨0, some ("x"), [1], 1, true⟩ := by decide

/-- C6 (amended): for a pdf or djvu input, when the page-count result's
exit status is exactly 1, the whole conversion aborts with a failure
status before any page is rasterized; other nonzero exit statuses do
not trigger this abort. -/
theorem c6_pagecount_rc1_aborts (env : Env) (mt oc : String)
    (op : Option String) (path : String)
    (hmt : env.mimeType = some mt)
    (hdoc : pyStartsWith mt ("application/pdf") = true ∨
      pyStartsWith mt ("image/vnd.djvu") = true)
    (hrc : env.pageCount.returncode = 1)
    (hsuf : pathSuffix path = (".txt")) :
    ocrFile env env.mimeType oc op = some ⟨1, none, [], 0, true⟩ ∧
    convert env none oc op =
      some ⟨.code 1, none, true, false, [], 0, true⟩ ∧
    convert env (some path) oc op =
      some ⟨.code 1, some (""), false, false, [], 0, true⟩ := by
  have hplain : env.mimeType ≠ some ("text/plain") := by
    rw [hmt]
    intro h0
    injection h0 with h0'
    exact mime_not_plain (Or.elim hdoc Or.inl (fun h => Or.inr (Or.inl h))) h0'
  have hocr : ocrFile env env.mimeType oc op = some ⟨1, none, [], 0, true⟩ := by
    rw [hmt, ocrFile_doc env mt oc op hdoc]
    exact docBranch_rc1 env oc op hrc
  exact ⟨hocr,
    ((convert_eq_body env oc op path hplain hsuf).1).trans
      ((convertBody_ocr_failed env oc op _ hocr (by decide)).1),
    ((convert_eq_body env oc op path hplain hsuf).2).trans
      ((convertBody_ocr_failed env oc op _ hocr (by decide)).2)⟩

/-- Witness for the amended C6 with a page-count tool exiting 1. -/
theorem c6_pagecount_rc1_aborts_witness :
    ocrFile { envPdfOk with pageCount := ⟨2, 1⟩ }
        (some ("application/pdf")) ("tesseract_wrapper") none =
      some ⟨1, none, [], 0, true⟩ ∧
    convert { envPdfOk with pageCount := ⟨2, 1⟩ } none
        ("tesseract_wrapper") none =
      some ⟨.code 1, none, true, false, [], 0, true⟩ ∧
    convert { envPdfOk with pageCount := ⟨2, 1⟩ } (some ("out.txt"))
        ("tesseract_wrapper") none =
      some ⟨.code 1, some (""), false, false, [], 0, true⟩ :=
  c6_pagecount_rc1_aborts { envPdfOk with pageCount := ⟨2, 1⟩ }
    ("application/pdf") ("tesseract_wrapper") none ("out.txt") rfl
    (Or.inl (by decide)) rfl (by decide)

/-! ### Claim C7 -/

/-- C7 counterexample: a plain-text input with an output path lacking
the `.txt` extension does not fail - the plain-text short-circuit runs
before the extension check and returns success status 0. -/
theorem c7_plain_text_bypasses_extension_check :
    pathSuffix ("out.pdf") ≠ (".txt") ∧
    convert envPlain (some ("out.pdf")) ("tesseract_wrapper") none =
      some ⟨.code 0, none, false, false, [], 0, false⟩ := by decide

/-- C7 (amended): for every call to `convert` whose input is not
classified plain text and whose supplied output path does not have the
`.txt` extension, the conversion fails immediately with status 1,
before any page work, page counting, or temp-file creation. -/
theorem c7_bad_extension_rejected (env : Env) (path : String)
    (oc : String) (op : Option String)
    (hplain : env.mimeType ≠ some ("text/plain"))
    (hsuf : pathSuffix path ≠ (".txt")) :
    convert env (some path) oc op =
      some ⟨.code 1, none, false, false, [], 0, false⟩ := by
  unfold convert
  rw [if_neg hplain]
  dsimp only
  rw [if_pos hsuf]

/-- Witness for the amended C7: a pdf input with output `out.pdf` is
rejected with status 1 and nothing else happens. -/
theorem c7_bad_extension_rejected_witness :
    envPdfOk.mimeType ≠ some ("text/plain") ∧
    pathSuffix ("out.pdf") ≠ (".txt") ∧
    convert envPdfOk (some ("out.pdf")) ("tesseract_wrapper") none =
      some ⟨.code 1, none, false, false, [], 0, false⟩ :=
  ⟨by decide, by decide,
    c7_bad_extension_rejected envPdfOk ("out.pdf") ("tesseract_wrapper")
      none (by decide) (by decide)⟩

/-! ### Claim C8 -/

/-- C8 counterexample: inside the per-page loop there is no defensive
backend check - the loop body evaluates the backend name directly, so
with an unknown name it raises an uncaught `NameError` (modelled by
`none`) instead of reporting a failure, refuting the claimed in-loop
check (the pre-loop check merely makes this unreachable). -/
theorem c8_no_inloop_backend_check :
    envPdfOk.globalsContains ("no_such_function") = false ∧
    envPdfOk.raster 1 = 0 ∧
    ocrPageStep envPdfOk ("no_such_function") 1 = none := by decide

/-- C8 (amended): an unknown OCR backend name is a configuration error
reported with status 1 before any page work begins, in both the
pdf/djvu branch (after the page-count check) and the direct image
branch; there is no additional check inside the per-page loop - the
loop body would raise on an unknown name - but the pre-loop check
guarantees the loop never raises (with a known backend the loop always
completes). -/
theorem c8_unknown_backend_preloop (env : Env) (mt oc : String)
    (op : Option String) (hu : env.globalsContains oc = false) :
    ((pyStartsWith mt ("application/pdf") = true ∨
        pyStartsWith mt ("image/vnd.djvu") = true) →
      env.pageCount.returncode ≠ 1 →
      ocrFile env (some mt) oc op = some ⟨1, none, [], 0, true⟩) ∧
    (pyStartsWith mt ("application/pdf") = false →
      pyStartsWith mt ("image/vnd.djvu") = false →
      pyStartsWith mt ("image/") = true →
      ocrFile env (some mt) oc op = some ⟨1, none, [], 0, false⟩) ∧
    (∀ (env2 : Env) (oc2 : String), env2.globalsContains oc2 = true →
      ∀ pages : List Int, ∃ t n, runPages env2 oc2 pages = some (t, n)) := by
  refine ⟨fun hdoc hrc => ?_, fun h1 h2 h3 => ?_,
    fun env2 oc2 hk => runPages_known env2 oc2 hk⟩
  · rw [ocrFile_doc env mt oc op hdoc]
    exact docBranch_unknown env oc op hrc hu
  · unfold ocrFile
    dsimp only
    rw [if_neg (by simp [h1]), if_neg (by simp [h2]), if_pos h3,
      if_neg (by simp [hu])]

/-- Witness for the amended C8: the unknown name `no_such_function` is
rejected before any page work on a pdf input. -/
theorem c8_unknown_backend_preloop_witness :
    envPdfOk.globalsContains ("no_such_function") = false ∧
    ocrFile envPdfOk (some ("application/pdf")) ("no_such_function")
      none = some ⟨1, none, [], 0, true⟩ :=
  ⟨by decide,
    (c8_unknown_backend_preloop envPdfOk ("application/pdf")
      ("no_such_function") none (by decide)).1 (Or.inl (by decide))
      (by decide)⟩

/-! ### Claim C9 -/

/-- C9 counterexample: an input whose mime type cannot be detected at
all (`get_mime_type` returns `None`) does not produce the Unsupported
failure status - `ocr_file` calls `.startswith` on `None` and the
conversion dies with an uncaught `AttributeError` (modelled by
`none`), in both output modes. -/
theorem c9_undetectable_mime_raises :
    envNoMime.mimeType = none ∧
    convert envNoMime none ("tesseract_wrapper") none = none ∧
    convert envNoMime (some ("out.txt")) ("tesseract_wrapper") none =
      none := by decide

/-- C9 (amended): an input whose detected mime type is none of plain
text, pdf, djvu or `image/*` is Unsupported: `ocr_file` returns 1
without touching any tool and the whole conversion fails with
status 1; an undetectable type (`None`) instead raises an uncaught
exception. -/
theorem c9_unsupported_mime_fails (env : Env) (mt oc : String)
    (op : Option String) (path : String)
    (hmt : env.mimeType = some mt)
    (hplain : mt ≠ ("text/plain"))
    (h1 : pyStartsWith mt ("application/pdf") = false)
    (h2 : pyStartsWith mt ("image/vnd.djvu") = false)
    (h3 : pyStartsWith mt ("image/") = false)
    (hsuf : pathSuffix path = (".txt")) :
    (ocrFile env env.mimeType oc op = some ⟨1, none, [], 0, false⟩ ∧
      convert env none oc op =
        some ⟨.code 1, none, true, false, [], 0, false⟩ ∧
      convert env (some path) oc op =
        some ⟨.code 1, some (""), false, false, [], 0, false⟩) ∧
    (∀ env2 : Env, env2.mimeType = none →
      ocrFile env2 env2.mimeType oc op = none ∧
      convert env2 none oc op = none) := by
  have hplain' : env.mimeType ≠ some ("text/plain") := by
    rw [hmt]
    intro h0
    injection h0 with h0'
    exact hplain h0'
  have hocr : ocrFile env env.mimeType oc op =
      some ⟨1, none, [], 0, false⟩ := by
    rw [hmt]
    unfold ocrFile
    dsimp only
    rw [if_neg (by simp [h1]), if_neg (by simp [h2]), if_neg (by simp [h3])]
  refine ⟨⟨hocr,
    ((convert_eq_body env oc op path hplain' hsuf).1).trans
      ((convertBody_ocr_failed env oc op _ hocr (by decide)).1),
    ((convert_eq_body env oc op path hplain' hsuf).2).trans
      ((convertBody_ocr_failed env oc op _ hocr (by decide)).2)⟩,
    fun env2 hm2 => ⟨by rw [hm2]; rfl, ?_⟩⟩
  unfold convert
  rw [if_neg (by rw [hm2]; simp)]
  dsimp only
  unfold convertBody
  rw [hm2]
  rfl

/-- Witness for the amended C9 at the detectable-but-unsupported mime
type `text/html`. -/
theorem c9_unsupported_mime_fails_witness :
    convert { envPdfOk with mimeType := some ("text/html") }
        (some ("out.txt")) ("tesseract_wrapper") none =
      some ⟨.code 1, some (""), false, false, [], 0, false⟩ :=
  ((c9_unsupported_mime_fails
    { envPdfOk with mimeType := some ("text/html") } ("text/html")
    ("tesseract_wrapper") none ("out.txt") rfl (by decide) (by decide)
    (by decide) (by decide) (by decide)).1).2.2

end OcrLib
